import Mathlib

/-!
Shallow embedding of the Semantle game client (game session controller,
guess ledger, clue throttle, presentation derivation, transport adapter)
and proofs about its specified properties.

Similarity scores are JS numbers used only through order comparisons and
fixed decimal literals, so they are embedded as rationals (`ℚ`).
JS strings whose character content matters (trimming, lower-casing) are
embedded as `List Char`; others as `String`.
-/

/-- One scored guess, as held in `gameState.guesses`
(interface `Guess` in the game service module, plus the optional
`percentile` field that the session screen reads from each guess). -/
structure Guess where
  word : String
  similarity : ℚ
  guess_number : ℕ
  rank : ℕ
  is_correct : Bool
  percentile : Option ℤ
deriving DecidableEq, Repr

/-- The session state returned by the remote service
(interface `GameState` in the game service module). -/
structure GameState where
  game_id : String
  guesses : List Guess
  guess_count : ℕ
  game_over : Bool
  target_word : Option String
  started_at : String
  clues_used : Option ℕ
  clues_available : Option (List String)
deriving DecidableEq, Repr

/-- Embeds `getSimilarityColor` from the session screen: an if-chain over
thresholds 80, 70, 60, 50, 40, 30, 20 returning fixed color tokens. -/
def getSimilarityColor (similarity : ℚ) : String :=
  if 80 ≤ similarity then "#10b981"
  else if 70 ≤ similarity then "#84cc16"
  else if 60 ≤ similarity then "#eab308"
  else if 50 ≤ similarity then "#f59e0b"
  else if 40 ≤ similarity then "#f97316"
  else if 30 ≤ similarity then "#ef4444"
  else if 20 ≤ similarity then "#3b82f6"
  else "#6b7280"

/-- Embeds `getTemperatureEmoji` from the session screen: the same if-chain
over thresholds 80, 70, 60, 50, 40, 30, 20 returning fixed glyphs. -/
def getTemperatureEmoji (similarity : ℚ) : String :=
  if 80 ≤ similarity then "🔥🔥🔥"
  else if 70 ≤ similarity then "🔥🔥"
  else if 60 ≤ similarity then "🔥"
  else if 50 ≤ similarity then "🌡️"
  else if 40 ≤ similarity then "🌤️"
  else if 30 ≤ similarity then "☁️"
  else if 20 ≤ similarity then "❄️"
  else "🧊"

/-- The 8 score bands of the two presentation if-chains, as half-open
intervals: band 0 is `[80, ∞)`, band `i` for `1 ≤ i ≤ 6` is
`[lower i, lower (i-1))`, band 7 is `(-∞, 20)`. -/
def inBand : Fin 8 → ℚ → Prop
  | ⟨0, _⟩, s => 80 ≤ s
  | ⟨1, _⟩, s => 70 ≤ s ∧ s < 80
  | ⟨2, _⟩, s => 60 ≤ s ∧ s < 70
  | ⟨3, _⟩, s => 50 ≤ s ∧ s < 60
  | ⟨4, _⟩, s => 40 ≤ s ∧ s < 50
  | ⟨5, _⟩, s => 30 ≤ s ∧ s < 40
  | ⟨6, _⟩, s => 20 ≤ s ∧ s < 30
  | ⟨7, _⟩, s => s < 20

/-- The band an input score falls in: the first threshold of the if-chain
that matches, mirroring the chains of `getSimilarityColor` and
`getTemperatureEmoji`. -/
def bandIndex (s : ℚ) : Fin 8 :=
  if 80 ≤ s then ⟨0, by omega⟩
  else if 70 ≤ s then ⟨1, by omega⟩
  else if 60 ≤ s then ⟨2, by omega⟩
  else if 50 ≤ s then ⟨3, by omega⟩
  else if 40 ≤ s then ⟨4, by omega⟩
  else if 30 ≤ s then ⟨5, by omega⟩
  else if 20 ≤ s then ⟨6, by omega⟩
  else ⟨7, by omega⟩

/-- The color token of each band, in chain order. -/
def bandColor : Fin 8 → String
  | ⟨0, _⟩ => "#10b981"
  | ⟨1, _⟩ => "#84cc16"
  | ⟨2, _⟩ => "#eab308"
  | ⟨3, _⟩ => "#f59e0b"
  | ⟨4, _⟩ => "#f97316"
  | ⟨5, _⟩ => "#ef4444"
  | ⟨6, _⟩ => "#3b82f6"
  | ⟨7, _⟩ => "#6b7280"

/-- The glyph of each band, in chain order. -/
def bandGlyph : Fin 8 → String
  | ⟨0, _⟩ => "🔥🔥🔥"
  | ⟨1, _⟩ => "🔥🔥"
  | ⟨2, _⟩ => "🔥"
  | ⟨3, _⟩ => "🌡️"
  | ⟨4, _⟩ => "🌤️"
  | ⟨5, _⟩ => "☁️"
  | ⟨6, _⟩ => "❄️"
  | ⟨7, _⟩ => "🧊"

theorem inBand_bandIndex (s : ℚ) : inBand (bandIndex s) s := by
  unfold bandIndex
  split_ifs with h1 h2 h3 h4 h5 h6 h7 <;>
    simp only [inBand] <;>
    push_neg at * <;>
    first
      | assumption
      | exact ⟨by assumption, by assumption⟩

theorem inBand_eq_bandIndex {i : Fin 8} {s : ℚ} (hi : inBand i s) :
    i = bandIndex s := by
  fin_cases i <;> simp only [inBand] at hi <;> unfold bandIndex
  · rw [if_pos hi]
  · obtain ⟨h1, h2⟩ := hi
    rw [if_neg (by linarith), if_pos (by linarith)]
  · obtain ⟨h1, h2⟩ := hi
    rw [if_neg (by linarith), if_neg (by linarith), if_pos (by linarith)]
  · obtain ⟨h1, h2⟩ := hi
    rw [if_neg (by linarith), if_neg (by linarith), if_neg (by linarith),
      if_pos (by linarith)]
  · obtain ⟨h1, h2⟩ := hi
    rw [if_neg (by linarith), if_neg (by linarith), if_neg (by linarith),
      if_neg (by linarith), if_pos (by linarith)]
  · obtain ⟨h1, h2⟩ := hi
    rw [if_neg (by linarith), if_neg (by linarith), if_neg (by linarith),
      if_neg (by linarith), if_neg (by linarith), if_pos (by linarith)]
  · obtain ⟨h1, h2⟩ := hi
    rw [if_neg (by linarith), if_neg (by linarith), if_neg (by linarith),
      if_neg (by linarith), if_neg (by linarith), if_neg (by linarith),
      if_pos (by linarith)]
  · rw [if_neg (by linarith), if_neg (by linarith), if_neg (by linarith),
      if_neg (by linarith), if_neg (by linarith), if_neg (by linarith),
      if_neg (by linarith)]

theorem inBand_unique {i j : Fin 8} {s : ℚ} (hi : inBand i s) (hj : inBand j s) :
    i = j :=
  (inBand_eq_bandIndex hi).trans (inBand_eq_bandIndex hj).symm

theorem getSimilarityColor_eq_bandColor (s : ℚ) :
    getSimilarityColor s = bandColor (bandIndex s) := by
  unfold getSimilarityColor bandIndex
  split_ifs <;> rfl

theorem getTemperatureEmoji_eq_bandGlyph (s : ℚ) :
    getTemperatureEmoji s = bandGlyph (bandIndex s) := by
  unfold getTemperatureEmoji bandIndex
  split_ifs <;> rfl

/-- C3: for every score input in `[0, 100]`, exactly one of the 8 fixed
bands (thresholds 80, 70, 60, 50, 40, 30, 20, else) applies for both the
color mapping and the glyph mapping; bands are inclusive of their lower
threshold, so score 80 lies in the top band and score 79.9 in the next
band down. -/
theorem claim_C3_bands_partition (s : ℚ) (h0 : 0 ≤ s) (h100 : s ≤ 100) :
    (∃! i : Fin 8, inBand i s ∧ getSimilarityColor s = bandColor i ∧
        getTemperatureEmoji s = bandGlyph i)
    ∧ inBand ⟨0, by norm_num⟩ (80 : ℚ) ∧ inBand ⟨1, by norm_num⟩ ((799 : ℚ) / 10) := by
  refine ⟨⟨bandIndex s, ⟨inBand_bandIndex s, getSimilarityColor_eq_bandColor s,
      getTemperatureEmoji_eq_bandGlyph s⟩, ?_⟩, ?_, ?_⟩
  · rintro j ⟨hj, -, -⟩
    exact inBand_eq_bandIndex hj
  · show (80 : ℚ) ≤ 80
    norm_num
  · show (70 : ℚ) ≤ 799 / 10 ∧ (799 : ℚ) / 10 < 80
    constructor <;> norm_num

/-- Witness for C3: the property instantiated at the concrete score 80. -/
theorem claim_C3_bands_partition_witness :
    (0 : ℚ) ≤ 80 ∧ (80 : ℚ) ≤ 100 ∧
      ((∃! i : Fin 8, inBand i (80 : ℚ) ∧ getSimilarityColor 80 = bandColor i ∧
          getTemperatureEmoji 80 = bandGlyph i)
        ∧ inBand ⟨0, by norm_num⟩ (80 : ℚ) ∧ inBand ⟨1, by norm_num⟩ ((799 : ℚ) / 10)) :=
  ⟨by norm_num, by norm_num, claim_C3_bands_partition 80 (by norm_num) (by norm_num)⟩

/-- Embeds `getPercentileDisplay` from the session screen: a fixed
placeholder when the percentile is absent (JS `null`/`undefined`), else the
string `<percentile>/1000`. -/
def getPercentileDisplay (percentile : Option ℤ) : String :=
  match percentile with
  | none => "—"
  | some p => toString p ++ "/1000"

/-- The percentile text the guess list renders for one guess: the screen
shows `getPercentileDisplay(guess.percentile)` when `guess.percentile` is
non-null and a literal placeholder otherwise. -/
def renderedPercentile (g : Guess) : String :=
  match g.percentile with
  | some p => getPercentileDisplay (some p)
  | none => "—"

theorem renderedPercentile_eq (g : Guess) :
    renderedPercentile g = getPercentileDisplay g.percentile := by
  cases hg : g.percentile <;> simp [renderedPercentile, getPercentileDisplay, hg]

/-- C7: the displayed percentile text is derived only from the percentile
value supplied by the remote service — a fixed placeholder when the
percentile is absent and `<percentile>/1000` otherwise — and is never
recomputed from `rank` or the guess count: two guesses with the same
percentile render identically whatever their other fields. -/
theorem claim_C7_percentile_display (g : Guess) :
    renderedPercentile g = getPercentileDisplay g.percentile
    ∧ (g.percentile = none → renderedPercentile g = "—")
    ∧ (∀ p : ℤ, g.percentile = some p → renderedPercentile g = toString p ++ "/1000")
    ∧ ∀ g2 : Guess, g2.percentile = g.percentile →
        renderedPercentile g2 = renderedPercentile g := by
  refine ⟨renderedPercentile_eq g, ?_, ?_, ?_⟩
  · intro h
    simp [renderedPercentile_eq, getPercentileDisplay, h]
  · intro p hp
    simp [renderedPercentile_eq, getPercentileDisplay, hp]
  · intro g2 h12
    rw [renderedPercentile_eq, renderedPercentile_eq, h12]

/-- Witness for C7: a concrete guess with percentile 700 renders as
`700/1000`; one with an absent percentile renders the placeholder. -/
theorem claim_C7_percentile_display_witness :
    renderedPercentile ⟨"dog", 452 / 10, 1, 120, false, some 700⟩ = "700/1000"
    ∧ renderedPercentile ⟨"cat", 62, 2, 40, false, none⟩ = "—" := by
  constructor
  · exact ((claim_C7_percentile_display _).2.2.1 700 rfl).trans (by decide)
  · exact (claim_C7_percentile_display _).2.1 rfl

/-- Embeds `word.toLowerCase()` from the transport adapter, character-wise
over the embedded JS string. -/
def jsToLowerCase (w : List Char) : List Char := w.map Char.toLower

/-- Embeds `String.prototype.trim()` as used by the transport adapter:
drop whitespace characters from both ends of the string. -/
def jsTrim (w : List Char) : List Char :=
  (((w.dropWhile Char.isWhitespace).reverse).dropWhile Char.isWhitespace).reverse

/-- The JSON body of the guess request, as built in `makeGuess`:
`{ game_id: gameId, word: word.toLowerCase().trim() }`. -/
structure GuessRequestBody where
  game_id : String
  word : List Char
deriving DecidableEq, Repr

/-- Embeds the request construction of `makeGuess` in the game service:
the word is lower-cased and then trimmed before being sent. -/
def makeGuessBody (gameId : String) (word : List Char) : GuessRequestBody :=
  ⟨gameId, jsTrim (jsToLowerCase word)⟩

theorem Char.toLower_eq_self_of_isWhitespace {c : Char} (h : c.isWhitespace = true) :
    c.toLower = c := by
  simp only [Char.isWhitespace, Bool.or_eq_true, decide_eq_true_eq] at h
  rcases h with ((h | h) | h) | h <;> subst h <;> decide

theorem jsToLowerCase_eq_self_of_ws {p : List Char}
    (hp : ∀ c ∈ p, c.isWhitespace = true) : jsToLowerCase p = p := by
  induction p with
  | nil => rfl
  | cons c t ih =>
    have h1 : c.toLower = c :=
      Char.toLower_eq_self_of_isWhitespace (hp c (List.mem_cons_self c t))
    have h2 := ih fun d hd => hp d (List.mem_cons_of_mem c hd)
    simp only [jsToLowerCase, List.map_cons] at h2 ⊢
    rw [h1, h2]

theorem dropWhile_ws_eq_nil_of_ws {q : List Char}
    (hq : ∀ c ∈ q, c.isWhitespace = true) :
    q.dropWhile Char.isWhitespace = [] := by
  induction q with
  | nil => rfl
  | cons c t ih =>
    rw [List.dropWhile_cons, if_pos (hq c (List.mem_cons_self c t))]
    exact ih fun d hd => hq d (List.mem_cons_of_mem c hd)

theorem jsTrim_append_ws (l p q : List Char)
    (hp : ∀ c ∈ p, c.isWhitespace = true) (hq : ∀ c ∈ q, c.isWhitespace = true) :
    jsTrim (p ++ l ++ q) = jsTrim l := by
  unfold jsTrim
  rw [List.append_assoc, List.dropWhile_append_of_pos hp, List.dropWhile_append]
  by_cases he : ((l.dropWhile Char.isWhitespace).isEmpty : Bool) = true
  · rw [if_pos he, dropWhile_ws_eq_nil_of_ws hq, List.isEmpty_iff.mp he]
  · rw [if_neg he, List.reverse_append,
      List.dropWhile_append_of_pos fun c hc => hq c (List.mem_reverse.mp hc)]

/-- C8: for every input word, the guess request carries the word normalized
by lower-casing then trimming; in particular the request word is invariant
under surrounding whitespace and under any change of the input that does
not alter its lower-cased form, and the game id is passed through
untouched. -/
theorem claim_C8_guess_normalization (gameId : String) (w p q : List Char)
    (hp : ∀ c ∈ p, c.isWhitespace = true) (hq : ∀ c ∈ q, c.isWhitespace = true) :
    (makeGuessBody gameId w).game_id = gameId
    ∧ (makeGuessBody gameId w).word = jsTrim (jsToLowerCase w)
    ∧ makeGuessBody gameId (p ++ w ++ q) = makeGuessBody gameId w
    ∧ ∀ v : List Char, jsToLowerCase v = jsToLowerCase w →
        makeGuessBody gameId v = makeGuessBody gameId w := by
  refine ⟨rfl, rfl, ?_, ?_⟩
  · unfold makeGuessBody
    have hlow : jsToLowerCase (p ++ w ++ q)
        = p ++ jsToLowerCase w ++ q := by
      simp only [jsToLowerCase, List.map_append]
      rw [show List.map Char.toLower p = p from jsToLowerCase_eq_self_of_ws hp,
        show List.map Char.toLower q = q from jsToLowerCase_eq_self_of_ws hq]
    rw [hlow, jsTrim_append_ws _ p q hp hq]
  · intro v hv
    unfold makeGuessBody
    rw [hv]

/-- Witness for C8: the guess request for the word `"  DoG "` (typed with
surrounding whitespace and mixed case) equals the one for `"dog"`. -/
theorem claim_C8_guess_normalization_witness :
    (∀ c ∈ [' ', ' '], c.isWhitespace = true)
    ∧ (∀ c ∈ [' '], c.isWhitespace = true)
    ∧ ((makeGuessBody "g1" ['D', 'o', 'G']).game_id = "g1"
      ∧ (makeGuessBody "g1" ['D', 'o', 'G']).word
          = jsTrim (jsToLowerCase ['D', 'o', 'G'])
      ∧ makeGuessBody "g1" ([' ', ' '] ++ ['D', 'o', 'G'] ++ [' '])
          = makeGuessBody "g1" ['D', 'o', 'G']
      ∧ ∀ v : List Char, jsToLowerCase v = jsToLowerCase ['D', 'o', 'G'] →
          makeGuessBody "g1" v = makeGuessBody "g1" ['D', 'o', 'G']) :=
  ⟨by decide, by decide,
    claim_C8_guess_normalization "g1" ['D', 'o', 'G'] [' ', ' '] [' ']
      (by decide) (by decide)⟩

/-- Embeds the JS expression `error.detail || fallback` used by every
transport method on a non-2xx response: the `detail` field of the parsed body
when it is present and truthy (in JS a string is truthy iff non-empty),
else the fallback message. -/
def jsOrElse (detail : Option String) (fallback : String) : String :=
  match detail with
  | some s => if s = "" then fallback else s
  | none => fallback

/-- The user-facing error `startGame` throws on a non-2xx response. -/
def startGameErrorMessage (detail : Option String) : String :=
  jsOrElse detail "Failed to start game"

/-- The user-facing error `makeGuess` throws on a non-2xx response. -/
def makeGuessErrorMessage (detail : Option String) : String :=
  jsOrElse detail "Failed to make guess"

/-- The user-facing error `getGameState` throws on a non-2xx response. -/
def getGameStateErrorMessage (detail : Option String) : String :=
  jsOrElse detail "Failed to get game state"

/-- The user-facing error `giveUp` throws on a non-2xx response. -/
def giveUpErrorMessage (detail : Option String) : String :=
  jsOrElse detail "Failed to give up"

/-- The user-facing error `getClue` throws on a non-2xx response. -/
def getClueErrorMessage (detail : Option String) : String :=
  jsOrElse detail "Failed to get clue"

/-- Counterexample to C9 as stated: when the response body carries the
`detail` field with the empty string — the field is present — the surfaced
error is the generic fallback, not the `detail` text verbatim. -/
theorem claim_C9_counterexample :
    makeGuessErrorMessage (some "") = "Failed to make guess"
    ∧ makeGuessErrorMessage (some "") ≠ "" := by
  constructor <;> decide

/-- C9 (amended): on a non-2xx response the surfaced error carries the
`detail` text of the body verbatim when that field is present and non-empty,
and the fixed fallback message of the operation when the field is absent or the
empty string (JS `||` treats the empty string as falsy). -/
theorem claim_C9_error_detail (s : String) (hs : s ≠ "") :
    (startGameErrorMessage (some s) = s
      ∧ startGameErrorMessage none = "Failed to start game"
      ∧ startGameErrorMessage (some "") = "Failed to start game")
    ∧ (makeGuessErrorMessage (some s) = s
      ∧ makeGuessErrorMessage none = "Failed to make guess"
      ∧ makeGuessErrorMessage (some "") = "Failed to make guess")
    ∧ (getGameStateErrorMessage (some s) = s
      ∧ getGameStateErrorMessage none = "Failed to get game state"
      ∧ getGameStateErrorMessage (some "") = "Failed to get game state")
    ∧ (giveUpErrorMessage (some s) = s
      ∧ giveUpErrorMessage none = "Failed to give up"
      ∧ giveUpErrorMessage (some "") = "Failed to give up")
    ∧ (getClueErrorMessage (some s) = s
      ∧ getClueErrorMessage none = "Failed to get clue"
      ∧ getClueErrorMessage (some "") = "Failed to get clue") := by
  simp [startGameErrorMessage, makeGuessErrorMessage, getGameStateErrorMessage,
    giveUpErrorMessage, getClueErrorMessage, jsOrElse, hs]

/-- Witness for C9: the amended property instantiated at the concrete
detail text `"word not in dictionary"`. -/
theorem claim_C9_error_detail_witness :
    "word not in dictionary" ≠ ""
    ∧ makeGuessErrorMessage (some "word not in dictionary")
        = "word not in dictionary" :=
  ⟨by decide, (claim_C9_error_detail "word not in dictionary" (by decide)).2.1.1⟩

/-- An HTTP response as seen by the transport adapter; per the fetch API,
`response.ok` is determined by the status code alone. -/
structure HttpResponse where
  status : ℕ
  detail : Option String
deriving DecidableEq, Repr

/-- Embeds `response.ok` of the fetch API: true iff the status is 200-299. -/
def responseOk (r : HttpResponse) : Bool :=
  decide (200 ≤ r.status) && decide (r.status ≤ 299)

/-- Embeds `checkHealth` in the game service: the health request either
resolves with a response — the function returns `response.ok` — or throws,
in which case the catch branch logs and returns `false`. -/
def checkHealth : Except String HttpResponse → Bool
  | .ok r => responseOk r
  | .error _ => false

/-- C10: `checkHealth` never raises: it is a total function into `Bool`
that returns true exactly when the health request resolves with a 2xx
status, and false both for non-2xx statuses and for any network
exception. -/
theorem claim_C10_checkHealth_total (o : Except String HttpResponse) :
    (checkHealth o = true ↔ ∃ r, o = Except.ok r ∧ 200 ≤ r.status ∧ r.status ≤ 299)
    ∧ (∀ e, checkHealth (Except.error e) = false)
    ∧ ∀ r, checkHealth (Except.ok r) = responseOk r := by
  refine ⟨?_, fun e => rfl, fun r => rfl⟩
  cases o with
  | error e => simp [checkHealth]
  | ok r =>
    simp [checkHealth, responseOk]

/-- The comparator relation of the guess list display. The session screen
renders `[...gameState.guesses].sort((a, b) => b.similarity - a.similarity)`;
`simGE a b` holds exactly when the comparator lets `a` stay in front of `b`
(comparator value at most 0, i.e. `b.similarity ≤ a.similarity`). -/
def simGE (a b : Guess) : Prop := b.similarity ≤ a.similarity

instance : DecidableRel simGE := fun a b =>
  inferInstanceAs (Decidable (b.similarity ≤ a.similarity))

instance : IsTotal Guess simGE :=
  ⟨fun a b => le_total b.similarity a.similarity⟩

instance : IsTrans Guess simGE :=
  ⟨fun _ _ _ hab hbc => le_trans hbc hab⟩

/-- The stable descending-by-similarity sort the guess list applies.
JS `Array.prototype.sort` is stable (ES2019), and the stable sort under the
total preorder induced by this comparator is exactly `List.insertionSort`
with `simGE`: each element is placed after every strictly more similar
earlier element and keeps insertion order among equal similarities. -/
def sortGuesses (l : List Guess) : List Guess :=
  List.insertionSort simGE l

/-- The guess sequence exactly as the session screen displays it:
`[...gameState.guesses].sort((a, b) => b.similarity - a.similarity)`. -/
def displayedGuesses (s : GameState) : List Guess :=
  sortGuesses s.guesses

theorem filter_sortGuesses (l : List Guess) (p : Guess → Bool)
    (hp : ∀ a b, p a = true → p b = true → simGE a b) :
    (sortGuesses l).filter p = l.filter p := by
  have hpair : (l.filter p).Pairwise simGE :=
    List.pairwise_of_forall_mem_list fun a ha b hb =>
      hp a b (List.mem_filter.mp ha).2 (List.mem_filter.mp hb).2
  have hsub : List.Sublist (l.filter p) (sortGuesses l) :=
    List.sublist_insertionSort hpair (List.filter_sublist l)
  have hsub2 : List.Sublist ((l.filter p).filter p) ((sortGuesses l).filter p) :=
    hsub.filter p
  rw [List.filter_eq_self.mpr fun a ha => (List.mem_filter.mp ha).2] at hsub2
  have hlen : ((sortGuesses l).filter p).length = (l.filter p).length :=
    ((List.perm_insertionSort simGE l).filter p).length_eq
  exact (hsub2.eq_of_length hlen.symm).symm

/-- C1 (amended): the displayed guess sequence is sorted descending by
similarity regardless of insertion order, it is a permutation of the
ledger, and guesses of equal similarity appear in their ledger (insertion)
order — the display sort is stable and does not reorder ties by rank. -/
theorem claim_C1_ordered_view (s : GameState) :
    (displayedGuesses s).Pairwise simGE
    ∧ (displayedGuesses s).Perm s.guesses
    ∧ ∀ q : ℚ, (displayedGuesses s).filter (fun g => decide (g.similarity = q))
        = s.guesses.filter (fun g => decide (g.similarity = q)) := by
  refine ⟨List.sorted_insertionSort simGE s.guesses,
    List.perm_insertionSort simGE s.guesses, fun q => ?_⟩
  exact filter_sortGuesses s.guesses _ fun a b ha hb => by
    have ha2 : a.similarity = q := of_decide_eq_true ha
    have hb2 : b.similarity = q := of_decide_eq_true hb
    unfold simGE
    rw [ha2, hb2]

/-- A guess of similarity 50 and rank 5, inserted into the ledger first. -/
def tieGuessHighRank : Guess := ⟨"alpha", 50, 1, 5, false, none⟩

/-- A guess of similarity 50 and rank 2, inserted into the ledger second. -/
def tieGuessLowRank : Guess := ⟨"beta", 50, 2, 2, false, none⟩

/-- A session whose ledger holds the two tied guesses in insertion order,
higher rank first. -/
def tieGameState : GameState :=
  ⟨"g1", [tieGuessHighRank, tieGuessLowRank], 2, false, none, "", none, none⟩

/-- Counterexample to C1 as stated: the two guesses tie on similarity, yet
the displayed sequence keeps insertion order — rank 5 before rank 2 —
instead of ascending rank, because the display comparator compares only
`similarity` and the stable sort preserves input order on ties. -/
theorem claim_C1_counterexample :
    displayedGuesses tieGameState = [tieGuessHighRank, tieGuessLowRank]
    ∧ tieGuessHighRank.similarity = tieGuessLowRank.similarity
    ∧ tieGuessLowRank.rank < tieGuessHighRank.rank
    ∧ ¬ List.Pairwise (fun a b => a.similarity = b.similarity → a.rank ≤ b.rank)
        (displayedGuesses tieGameState) := by
  refine ⟨by decide, by decide, by decide, by decide⟩

/-- The guess response returned by the remote service
(interface `GuessResponse` in the game service module). -/
structure GuessResponse where
  game_id : String
  word : String
  similarity : ℚ
  rank : ℕ
  percentile : Option ℤ
  guess_number : ℕ
  is_correct : Bool
  game_over : Bool
  top_similarity : Option ℚ
deriving DecidableEq, Repr

/-- The clue response returned by the remote service
(interface `ClueResponse` in the game service module). -/
structure ClueResponse where
  game_id : String
  clue : String
  clue_number : ℕ
  remaining_clues : ℕ
deriving DecidableEq, Repr

/-- The reactive state of the session screen: its `useState` fields.
The guess input is a JS string whose character content matters (it is
trimmed), so it is embedded as `List Char`. Timers armed with `setTimeout`
are modelled separately. -/
structure AppState where
  gameState : Option GameState
  guessInput : List Char
  loading : Bool
  apiConnected : Option Bool
  error : String
  cluesUsed : ℕ
  currentClue : String
deriving DecidableEq, Repr

/-- The network outcome one `handleGuess` call observes: either one of its
two awaited requests throws with a message, or both succeed, yielding the
guess result and the refreshed session state. -/
inductive GuessOutcome where
  | failure (msg : String)
  | success (result : GuessResponse) (updatedState : GameState)
deriving DecidableEq, Repr

/-- Embeds `handleGuess`: the guard returns at once — no request issued —
when the trimmed input is empty, no session is loaded, or a request is in
flight; otherwise the call completes against the given network outcome.
On failure only the error message is set (and `loading` returns to false);
on success the refreshed session state is stored and the input cleared.
The win celebration is a detached timer, not part of this state. Returns
the final state and whether a network request was issued. -/
def handleGuess (s : AppState) (outcome : GuessOutcome) : AppState × Bool :=
  if jsTrim s.guessInput = [] ∨ s.gameState = none ∨ s.loading = true then
    (s, false)
  else
    match outcome with
    | .failure msg => ({ s with error := msg, loading := false }, true)
    | .success _ updated =>
        ({ s with
            gameState := some updated
            guessInput := []
            error := ""
            loading := false }, true)

/-- C5: whenever the input is empty after trimming, or no session is
active, or a request is already in flight, `handleGuess` is a no-op: it
issues no network call and leaves the whole screen state unchanged. -/
theorem claim_C5_submit_guard (s : AppState) (outcome : GuessOutcome)
    (h : jsTrim s.guessInput = [] ∨ s.gameState = none ∨ s.loading = true) :
    handleGuess s outcome = (s, false) := by
  unfold handleGuess
  rw [if_pos h]

/-- A concrete screen state with an active session, a whitespace-only
input and no request in flight. -/
def wsInputState : AppState :=
  AppState.mk (some ⟨"g1", [], 0, false, none, "", none, none⟩)
    [' ', ' '] false (some true) "" 0 ""

/-- Witness for C5: a whitespace-only input with an active session and no
request in flight is rejected without touching the state. -/
theorem claim_C5_submit_guard_witness :
    (jsTrim wsInputState.guessInput = [] ∨ wsInputState.gameState = none ∨
        wsInputState.loading = true)
    ∧ handleGuess wsInputState (GuessOutcome.failure "network down")
      = (wsInputState, false) :=
  ⟨Or.inl (by decide),
    claim_C5_submit_guard wsInputState (GuessOutcome.failure "network down")
      (Or.inl (by decide))⟩

/-- C4: when a guess submission passes the guard but its network request
fails, the session state after `handleGuess` equals the state before it:
the ledger and the guess count (indeed the whole `gameState`), the input,
the clue state and the loading flag are unchanged; only the error message
is set. -/
theorem claim_C4_failed_guess_rollback (s : AppState) (msg : String)
    (hin : ¬ jsTrim s.guessInput = []) (hgs : ¬ s.gameState = none)
    (hld : ¬ s.loading = true) :
    (handleGuess s (GuessOutcome.failure msg)).1.gameState = s.gameState
    ∧ (handleGuess s (GuessOutcome.failure msg)).1.gameState.map GameState.guesses
        = s.gameState.map GameState.guesses
    ∧ (handleGuess s (GuessOutcome.failure msg)).1.gameState.map GameState.guess_count
        = s.gameState.map GameState.guess_count
    ∧ (handleGuess s (GuessOutcome.failure msg)).1.guessInput = s.guessInput
    ∧ (handleGuess s (GuessOutcome.failure msg)).1.loading = s.loading
    ∧ (handleGuess s (GuessOutcome.failure msg)).1.cluesUsed = s.cluesUsed
    ∧ (handleGuess s (GuessOutcome.failure msg)).1.currentClue = s.currentClue
    ∧ (handleGuess s (GuessOutcome.failure msg)).1.error = msg := by
  have hld2 : s.loading = false := by
    cases h : s.loading
    · rfl
    · exact absurd h hld
  simp [handleGuess, hin, hgs, hld2]

/-- A concrete screen state holding one scored guess, with the input
`dog` typed and no request in flight. -/
def oneGuessState : AppState :=
  AppState.mk
    (some ⟨"g1", [⟨"cat", 62, 1, 40, false, some 961⟩], 1, false, none, "", none, none⟩)
    ['d', 'o', 'g'] false (some true) "" 1 "hint"

/-- Witness for C4: a failing guess over a concrete one-guess session
leaves the ledger and count as they were and sets only the error. -/
theorem claim_C4_failed_guess_rollback_witness :
    (¬ jsTrim oneGuessState.guessInput = [])
    ∧ (handleGuess oneGuessState (GuessOutcome.failure "server exploded")).1.gameState
      = oneGuessState.gameState
    ∧ (handleGuess oneGuessState
        (GuessOutcome.failure "server exploded")).1.error = "server exploded" := by
  have h := claim_C4_failed_guess_rollback oneGuessState "server exploded"
    (by decide) (by decide) (by decide)
  exact ⟨by decide, h.1, h.2.2.2.2.2.2.2⟩

/-- Embeds `handleGetClue`: returns unchanged — no request issued — when no
session is loaded or a request is in flight, and likewise (after an alert,
which is not state) when `cluesUsed` has already reached 3; otherwise the
call completes against the network outcome: success stores the clue text
and sets `cluesUsed` to the server-reported clue number, failure only sets
the error. The clue expiry timer is modelled separately. Returns the final
state and whether a network request was issued. -/
def handleGetClue (s : AppState) (outcome : Except String ClueResponse) :
    AppState × Bool :=
  if s.gameState = none ∨ s.loading = true then (s, false)
  else if 3 ≤ s.cluesUsed then (s, false)
  else
    match outcome with
    | .ok resp =>
        ({ s with
            currentClue := resp.clue
            cluesUsed := resp.clue_number
            error := ""
            loading := false }, true)
    | .error msg => ({ s with error := msg, loading := false }, true)

/-- Runs a sequence of `handleGetClue` calls, each against the network
outcome it observes, threading the screen state. -/
def runClueCalls (s : AppState) : List (Except String ClueResponse) → AppState
  | [] => s
  | o :: os => runClueCalls (handleGetClue s o).1 os

/-- The documented boundary contract of the clue endpoint (the service
exposes at most 3 clues): a successful response reports a clue number of
at most 3; a failed request constrains nothing. -/
def clueRespectsCap : Except String ClueResponse → Prop
  | .ok r => r.clue_number ≤ 3
  | .error _ => True

instance (o : Except String ClueResponse) : Decidable (clueRespectsCap o) :=
  match o with
  | .ok r => inferInstanceAs (Decidable (r.clue_number ≤ 3))
  | .error _ => inferInstanceAs (Decidable True)

theorem handleGetClue_cluesUsed_le (s : AppState)
    (o : Except String ClueResponse) (hs : s.cluesUsed ≤ 3)
    (ho : clueRespectsCap o) : (handleGetClue s o).1.cluesUsed ≤ 3 := by
  unfold handleGetClue
  by_cases hg : s.gameState = none ∨ s.loading = true
  · rw [if_pos hg]
    exact hs
  · rw [if_neg hg]
    by_cases hc : 3 ≤ s.cluesUsed
    · rw [if_pos hc]
      exact hs
    · rw [if_neg hc]
      cases o with
      | ok r => simpa [clueRespectsCap] using ho
      | error m => simpa using hs

/-- C2: starting from any state within the cap, as long as every
successful clue response respects the documented 3-clue service contract,
`cluesUsed` never exceeds 3 in any reachable state; and a `handleGetClue`
call that finds `cluesUsed` already at 3 is rejected locally — the state
is unchanged and no network request is issued. -/
theorem claim_C2_clue_cap (s0 : AppState)
    (os : List (Except String ClueResponse)) (hinit : s0.cluesUsed ≤ 3)
    (hsrv : ∀ o ∈ os, clueRespectsCap o) :
    (runClueCalls s0 os).cluesUsed ≤ 3
    ∧ ∀ s : AppState, ∀ o : Except String ClueResponse, s.cluesUsed = 3 →
        handleGetClue s o = (s, false) := by
  constructor
  · induction os generalizing s0 with
    | nil => exact hinit
    | cons o os ih =>
      exact ih (handleGetClue s0 o).1
        (handleGetClue_cluesUsed_le s0 o hinit (hsrv o (List.mem_cons_self o os)))
        fun o2 ho2 => hsrv o2 (List.mem_cons_of_mem o ho2)
  · intro s o h3
    unfold handleGetClue
    by_cases hg : s.gameState = none ∨ s.loading = true
    · rw [if_pos hg]
    · rw [if_neg hg, if_pos (by rw [h3])]

/-- A fresh screen state with an active session and no clue used yet. -/
def freshClueState : AppState :=
  AppState.mk (some ⟨"g1", [], 0, false, none, "", none, none⟩)
    [] false (some true) "" 0 ""

/-- Three successful clue responses followed by a fourth, all within the
3-clue service contract. -/
def clueTrace : List (Except String ClueResponse) :=
  [Except.ok ⟨"g1", "first hint", 1, 2⟩, Except.ok ⟨"g1", "second hint", 2, 1⟩,
    Except.ok ⟨"g1", "third hint", 3, 0⟩, Except.error "no clues left"]

/-- Witness for C2: after three successful clues the counter stands at 3,
within the cap, and a further call on a state at the cap is rejected
without a request. -/
theorem claim_C2_clue_cap_witness :
    freshClueState.cluesUsed ≤ 3
    ∧ (∀ o ∈ clueTrace, clueRespectsCap o)
    ∧ ((runClueCalls freshClueState clueTrace).cluesUsed ≤ 3
      ∧ ∀ s : AppState, ∀ o : Except String ClueResponse, s.cluesUsed = 3 →
          handleGetClue s o = (s, false)) :=
  ⟨by decide, by decide,
    claim_C2_clue_cap freshClueState clueTrace (by decide) (by decide)⟩

/-- The clue visibility state together with the expiry timers armed by
`setTimeout`: each successful clue reveal runs `setCurrentClue(clue)` and
arms `setTimeout(() => setCurrentClue(""), 10000)`. `pending` holds the
fire times of armed, not-yet-fired timers, in arming order. -/
structure ClueTimerState where
  currentClue : String
  pending : List ℕ
deriving DecidableEq, Repr

/-- Timeline events of the clue display: a successful clue reveal at a
point in time, or an armed timer firing at its scheduled time. -/
inductive ClueTimerEvent where
  | reveal (clue : String) (now : ℕ)
  | fire (t : ℕ)
deriving DecidableEq, Repr

/-- Embeds the clue display effects of `handleGetClue` and its timer: a
successful reveal sets the clue text and arms a one-shot timer 10 time
units ahead, leaving previously armed timers in place (the code never
cancels them); a firing timer runs its callback `setCurrentClue("")`,
clearing the text unconditionally. -/
def clueTimerStep (s : ClueTimerState) : ClueTimerEvent → ClueTimerState
  | .reveal c now => { currentClue := c, pending := s.pending ++ [now + 10] }
  | .fire t =>
      if t ∈ s.pending then
        { currentClue := "", pending := s.pending.erase t }
      else s

/-- Runs a timeline of clue reveals and timer firings. -/
def runClueTimers (s : ClueTimerState) : List ClueTimerEvent → ClueTimerState
  | [] => s
  | e :: es => runClueTimers (clueTimerStep s e) es

/-- The timeline refuting C6: a clue revealed at time 0 (timer due at 10),
a newer clue revealed at time 5 (timer due at 15), then the first timer
fires at time 10. -/
def staleTimerTrace : List ClueTimerEvent :=
  [ClueTimerEvent.reveal "first clue" 0, ClueTimerEvent.reveal "second clue" 5,
    ClueTimerEvent.fire 10]

/-- Counterexample to C6 as stated: a newer clue was revealed after the
first timer was armed, yet when that stale timer fires it still clears the
clue text — the display goes blank instead of keeping the newer clue,
whose own timer is still pending. The code arms a plain `setTimeout` whose
callback clears the text unconditionally and never cancels it. -/
theorem claim_C6_counterexample :
    (runClueTimers ⟨"", []⟩ staleTimerTrace).currentClue = ""
    ∧ (runClueTimers ⟨"", []⟩ staleTimerTrace).currentClue ≠ "second clue"
    ∧ (runClueTimers ⟨"", []⟩ staleTimerTrace).pending = [15] := by
  refine ⟨by decide, by decide, by decide⟩

/-- C6 (amended): every successful clue reveal arms a one-shot expiry
timer 10 time units ahead and cancels nothing; a firing armed timer clears
the active clue text unconditionally — in particular a timer armed before
a newer reveal still clears the text of the newer clue when it fires. -/
theorem claim_C6_stale_timer (s : ClueTimerState) (c : String) (now t : ℕ)
    (ht : t ∈ s.pending) :
    (clueTimerStep s (ClueTimerEvent.reveal c now)).currentClue = c
    ∧ (clueTimerStep s (ClueTimerEvent.reveal c now)).pending
        = s.pending ++ [now + 10]
    ∧ (runClueTimers s
        [ClueTimerEvent.reveal c now, ClueTimerEvent.fire t]).currentClue = "" := by
  refine ⟨rfl, rfl, ?_⟩
  have hmem : t ∈ s.pending ++ [now + 10] := List.mem_append_left _ ht
  simp [runClueTimers, clueTimerStep, hmem]

/-- Witness for C6: with one timer armed at 10 and a newer clue revealed
at time 5, the firing of the stale timer clears the text of the newer clue. -/
theorem claim_C6_stale_timer_witness :
    10 ∈ ([10] : List ℕ)
    ∧ ((clueTimerStep ⟨"first clue", [10]⟩
          (ClueTimerEvent.reveal "second clue" 5)).currentClue = "second clue"
      ∧ (clueTimerStep ⟨"first clue", [10]⟩
          (ClueTimerEvent.reveal "second clue" 5)).pending = [10] ++ [5 + 10]
      ∧ (runClueTimers ⟨"first clue", [10]⟩
          [ClueTimerEvent.reveal "second clue" 5,
            ClueTimerEvent.fire 10]).currentClue = "") :=
  ⟨by decide,
    claim_C6_stale_timer ⟨"first clue", [10]⟩ "second clue" 5 10 (by decide)⟩
